import Mathlib

/-!
Verification development for the fotingo git/issue-tracker workflow tool.

The file shallowly embeds the pieces of the code base that the theorems at
the bottom are about:

* the start command pipeline (`src/commands/start.ts`),
* the command runner with its validation gate and the bulk issue resolution
  helper (`src/cli/FotingoCommand.ts`),
* the cacheable memoization decorator (`src/io/cacheable.ts`),
* the git adapter: `src/git/Git.ts` itself is not among the sources (only its
  unit tests are), so those operations are modelled from the specification
  and from the call sequences asserted by `src/test/git/Git.test.ts`.

Asynchronous observable pipelines are embedded as pure functions returning
the list of externally visible effects (a trace) next to their result;
concurrent merges are sequentialised in subscription order, which is the
order the source subscribes the inner observables.
-/

namespace Fotingo

/-- Issue workflow status (`IssueStatus` in `src/types`); the start command
only ever uses `IN_PROGRESS`. -/
inductive IssueStatus
| opened
| inProgress
| resolved
| released
deriving DecidableEq, Repr

/-- Issue type (`IssueType` in `src/types`). -/
inductive IssueType
| feature
| bug
| chore
deriving DecidableEq, Repr

/-- A tracker issue: key, title, type and workflow status. -/
structure Issue where
  key : String
  title : String
  type : IssueType
  status : IssueStatus
deriving DecidableEq, Repr

/-- Payload used to create a new issue (`CreateIssue` in `src/types`),
as assembled by `getCommandData` in the start command. -/
structure CreateIssue where
  description : String
  labels : List String
  project : String
  title : String
  type : IssueType
deriving DecidableEq, Repr

/-- Payload used to fetch an existing issue (`GetIssue` in `src/types`). -/
structure GetIssue where
  id : String
deriving DecidableEq, Repr

/-- The `issue` field of `StartData`: either an id to fetch or the data to
create a new issue. -/
inductive IssueRequest
| get (g : GetIssue)
| create (c : CreateIssue)
deriving DecidableEq, Repr

/-- The `git` part of `StartData` in `src/commands/start.ts`. -/
structure StartGitData where
  createBranch : Bool
deriving DecidableEq, Repr

/-- `StartData` in `src/commands/start.ts`. -/
structure StartData where
  git : StartGitData
  issue : IssueRequest
deriving DecidableEq, Repr

/-- The command line arguments the start command reads
(`FotingoArguments`, as consumed by `getCommandData`). -/
structure FotingoArguments where
  noBranchIssue : Bool
  create : Bool
  issueId : String
  description : String
  labels : List String
  project : String
  issueTitle : String
  type : IssueType
deriving DecidableEq, Repr

/-- Success-path behaviour of the issue tracker as seen by the start
command: each call returns the issue the tracker would emit. -/
structure TrackerOps where
  getIssue : String → Issue
  createIssueForCurrentUser : CreateIssue → Issue
  setIssueStatus : IssueStatus → String → Issue

/-- Behaviour of the git adapter as seen by the start command. -/
structure GitOps where
  getBranchNameForIssue : Issue → String

/-- Externally visible effects performed by the start command pipeline,
in the order they are subscribed. -/
inductive StartEvent
| getIssue (id : String)
| createIssue
| setIssueStatus (status : IssueStatus) (key : String)
| createBranchAndStashChanges (name : String)
deriving DecidableEq, Repr

/-- `getCommandData` from `src/commands/start.ts`: branch creation is
enabled unless the run is flagged `noBranchIssue`; the issue request is a
creation payload when `--create` was passed, otherwise the given id. -/
def getCommandData (args : FotingoArguments) : StartData :=
  { git := { createBranch := !args.noBranchIssue }
    issue :=
      if args.create then
        IssueRequest.create
          { description := args.description
            labels := args.labels
            project := args.project
            title := args.issueTitle
            type := args.type }
      else IssueRequest.get { id := args.issueId } }

/-- `getOrCreateIssue` from `src/commands/start.ts`: fetch the issue when
the request carries an id, otherwise create one for the current user. -/
def getOrCreateIssue (tracker : TrackerOps) (data : StartData) : Issue :=
  match data.issue with
  | IssueRequest.get g => tracker.getIssue g.id
  | IssueRequest.create c => tracker.createIssueForCurrentUser c

/-- The tracker effect `getOrCreateIssue` performs. -/
def getOrCreateIssueEvent (data : StartData) : StartEvent :=
  match data.issue with
  | IssueRequest.get g => StartEvent.getIssue g.id
  | IssueRequest.create _ => StartEvent.createIssue

/-- `shouldCreateBranch` from `src/commands/start.ts`. -/
def shouldCreateBranch (data : StartData) : Bool :=
  data.git.createBranch

/-- `cmd` from `src/commands/start.ts`, embedded on its success path: the
pipeline resolves or creates the issue, sets it in progress, and then
either derives a branch name and creates the branch (emitting `none`,
i.e. void) or just returns the in-progress issue. The first component is
the trace of tracker/git effects in subscription order. -/
def cmd (tracker : TrackerOps) (git : GitOps) (args : FotingoArguments) :
    List StartEvent × Option Issue :=
  let commandData := getCommandData args
  let issue := getOrCreateIssue tracker commandData
  let issueInProgress := tracker.setIssueStatus IssueStatus.inProgress issue.key
  let baseTrace := [getOrCreateIssueEvent commandData,
    StartEvent.setIssueStatus IssueStatus.inProgress issue.key]
  if shouldCreateBranch commandData then
    let branchName := git.getBranchNameForIssue issueInProgress
    (baseTrace ++ [StartEvent.createBranchAndStashChanges branchName], none)
  else
    (baseTrace, some issueInProgress)

/-- Recognises the branch creation effect in a start command trace. -/
def isCreateBranchEvent : StartEvent → Bool
  | StartEvent.createBranchAndStashChanges _ => true
  | _ => false

/-! ## Git adapter -/

/-- Git configuration: remote name and base branch name. -/
structure GitConfig where
  remote : String
  baseBranch : String
deriving DecidableEq, Repr

/-- Local repository state as the git adapter observes and mutates it:
the uncommitted changed files reported by status, the stash list (newest
first), the local branch names, the current HEAD commit, the latest commit
on the remote base branch, and whether a fetch has updated the
remote-tracking refs. -/
structure GitState where
  dirty : List String
  stashes : List String
  branches : List String
  head : String
  remoteTip : String
  fetchDone : Bool
deriving DecidableEq, Repr

/-- Error taxonomy of the git adapter (`GitErrorType` in
`src/git/GitError.ts`). -/
inductive GitErrorType
| notAGitRepo
| branchAlreadyExists
| noRemote
| gitCommandFailed
deriving DecidableEq, Repr

/-- Calls the adapter makes against the underlying git tool, as mocked in
`src/test/git/Git.test.ts`. -/
inductive GitEvent
| fetch
| status
| stash (message : String)
| log (ref : String)
| checkoutBranch (name : String) (start : String)
deriving DecidableEq, Repr

/-- The fixed stash message used by the adapter. -/
def autoStashMessage : String := "Auto generated by fotingo"

/-- The remote-tracking ref of the base branch. -/
def remoteBranchRef (config : GitConfig) : String :=
  "remotes/" ++ config.remote ++ "/" ++ config.baseBranch

/-- Modelled from the spec: `src/git/Git.ts` is not among the sources (only
`src/test/git/Git.test.ts` is), so `createBranchAndStashChanges` is modelled
from spec section 4.1 and the mock call sequence the test asserts: fetch,
read the status, stash (only when the working tree is dirty) under the fixed
auto-generated message, read the tip of the remote base branch with
`log [-n1, remotes/remote/baseBranch]`, then check the new branch out from
that tip; checking out a branch name that already exists fails and the
failure is translated to `BRANCH_ALREADY_EXISTS`. -/
def createBranchAndStashChanges (config : GitConfig) (st : GitState)
    (name : String) : List GitEvent × Except GitErrorType Unit :=
  let stashEvents :=
    if st.dirty.isEmpty then [] else [GitEvent.stash autoStashMessage]
  let trace := [GitEvent.fetch, GitEvent.status] ++ stashEvents ++
    [GitEvent.log (remoteBranchRef config),
     GitEvent.checkoutBranch name st.remoteTip]
  (trace,
    if name ∈ st.branches then Except.error GitErrorType.branchAlreadyExists
    else Except.ok ())

/-- Effect of a single git call on the repository state: fetch updates the
remote-tracking refs, stash cleans the tree and pushes a stash entry, a
checkout of a fresh name creates the branch and moves HEAD while a checkout
of an existing name fails and changes nothing. -/
def applyGitEvent (st : GitState) : GitEvent → GitState
  | GitEvent.fetch => { st with fetchDone := true }
  | GitEvent.status => st
  | GitEvent.stash message =>
      { st with stashes := message :: st.stashes, dirty := [] }
  | GitEvent.log _ => st
  | GitEvent.checkoutBranch name start =>
      if name ∈ st.branches then st
      else { st with branches := name :: st.branches, head := start }

/-- Repository state after a trace of git calls. -/
def applyGitEvents (st : GitState) (trace : List GitEvent) : GitState :=
  trace.foldl applyGitEvent st

/-- The stash messages recorded in a git trace. -/
def stashMessages (trace : List GitEvent) : List String :=
  trace.filterMap fun e =>
    match e with
    | GitEvent.stash message => some message
    | _ => none

/-- Recognises stash calls. -/
def isStashEvent : GitEvent → Bool
  | GitEvent.stash _ => true
  | _ => false

/-- Recognises checkout calls. -/
def isCheckoutEvent : GitEvent → Bool
  | GitEvent.checkoutBranch _ _ => true
  | _ => false

/-- True when no stash call occurs after a checkout call in the trace. -/
def noStashAfterCheckout : List GitEvent → Bool
  | [] => true
  | GitEvent.checkoutBranch _ _ :: rest => rest.all fun e => !isStashEvent e
  | _ :: rest => noStashAfterCheckout rest

/-- The (branch, start commit) pairs of the checkout calls in a trace. -/
def checkoutTargets (trace : List GitEvent) : List (String × String) :=
  trace.filterMap fun e =>
    match e with
    | GitEvent.checkoutBranch name start => some (name, start)
    | _ => none

/-- A configured git remote as returned by `getRemotes(true)`. -/
structure GitRemote where
  name : String
  fetchRef : String
  pushRef : String
deriving DecidableEq, Repr

/-- Modelled from the spec: `src/git/Git.ts` is not among the sources, so
`getRemote` is modelled from spec section 4.1 and the behaviour asserted in
`src/test/git/Git.test.ts`: return the remote whose name matches the
requested one, fall back to the first configured remote when no name
matches, and fail with a no-remote error when no remotes exist. -/
def getRemote (remotes : List GitRemote) (name : String) :
    Except GitErrorType GitRemote :=
  match remotes with
  | [] => Except.error GitErrorType.noRemote
  | r :: _ => Except.ok ((remotes.find? fun x => x.name == name).getD r)

/-! ## Bulk issue resolution (`FotingoCommand.getLocalChangesInformation`) -/

/-- A tracker error carrying the HTTP status code (`JiraError`). -/
structure JiraError where
  code : Nat
deriving DecidableEq, Repr

/-- An issue reference extracted from a commit message: the `issue` field
of the entries of `BranchInfo.issues`. -/
structure IssueReference where
  issue : String
deriving DecidableEq, Repr

/-- A commit as read from the git log. -/
structure Commit where
  hash : String
  author : String
  date : String
  message : String
deriving DecidableEq, Repr

/-- `BranchInfo` from `src/git/Git.ts`: branch name, commits since the
base branch, and the issue references found in their messages. -/
structure BranchInfo where
  name : String
  commits : List Commit
  issues : List IssueReference
deriving DecidableEq, Repr

/-- `LocalChanges` from `src/types`: the branch info paired with the
resolved tracker issues. -/
structure LocalChanges where
  branchInfo : BranchInfo
  issues : List Issue
deriving DecidableEq, Repr

/-- The tracker as `getLocalChangesInformation` uses it: a key format
check and a fallible issue fetch. -/
structure TrackerClient where
  isValidIssueName : String → Bool
  getIssue : String → Except JiraError Issue

/-- The inner `merge`/`reduce` of `getLocalChangesInformation`
(`src/cli/FotingoCommand.ts` lines 203-219), sequentialised in subscription
order: each key is fetched, a fetch error with code 404 maps the inner
observable to `EMPTY` (the key is skipped), any other error propagates and
fails the aggregate. -/
def resolveIssues (tracker : TrackerClient) : List String →
    Except JiraError (List Issue)
  | [] => Except.ok []
  | key :: rest =>
    match tracker.getIssue key, resolveIssues tracker rest with
    | Except.ok issue, Except.ok issues => Except.ok (issue :: issues)
    | Except.ok _, Except.error e => Except.error e
    | Except.error e, restResult =>
        if e.code == 404 then restResult else Except.error e

/-- True when fetching the key fails with a 404. -/
def is404 (tracker : TrackerClient) (key : String) : Bool :=
  match tracker.getIssue key with
  | Except.error e => e.code == 404
  | Except.ok _ => false

/-- True when fetching the key succeeds. -/
def fetchOk (tracker : TrackerClient) (key : String) : Bool :=
  match tracker.getIssue key with
  | Except.ok _ => true
  | Except.error _ => false

/-- The issues of the keys whose fetch succeeds, in key order. -/
def okIssues (tracker : TrackerClient) (keys : List String) : List Issue :=
  keys.filterMap fun key => (tracker.getIssue key).toOption

/-- `getLocalChangesInformation` from `src/cli/FotingoCommand.ts`: when the
tracker is enabled, the issue keys referenced by the branch are concatenated
with the extra keys, filtered through `isValidIssueName`, and each surviving
key is fetched from the tracker. The first component is the list of keys a
`getIssue` call is subscribed for. -/
def getLocalChangesInformation (tracker : TrackerClient)
    (branchInfo : BranchInfo) (issues : List String) (trackerEnabled : Bool) :
    List String × Except JiraError LocalChanges :=
  if !trackerEnabled then
    ([], Except.ok { branchInfo := branchInfo, issues := [] })
  else
    let allIssues := branchInfo.issues.map IssueReference.issue ++ issues
    let validIssues := allIssues.filter tracker.isValidIssueName
    (validIssues,
      (resolveIssues tracker validIssues).map
        fun resolved => { branchInfo := branchInfo, issues := resolved })

/-! ## Validation gate (`FotingoCommand.validate` / `run`) -/

/-- `validate` from `src/cli/FotingoCommand.ts`: each registered check
yields `undefined` when it passes and its associated message when it fails;
the first failing message observed (subscription order) is thrown. -/
def validate : List (Bool × String) → Except String Unit
  | [] => Except.ok ()
  | check :: rest =>
    if check.1 then validate rest else Except.error check.2

/-- Observable events of a command run: each registered check being
started, and the command body being invoked. -/
inductive RunEvent
| checkStarted (message : String)
| ranCmd
deriving DecidableEq, Repr

/-- `run` from `src/cli/FotingoCommand.ts`:
`this.validate(commandData$).pipe(switchMap(() => this.runCmd(...)))`.
The `merge` inside `validate` subscribes every registered check up front
(fire all), so each check is started; `runCmd` runs only when validation
emitted no failure message. -/
def runCommand (checks : List (Bool × String)) :
    List RunEvent × Except String Unit :=
  let started := checks.map fun check => RunEvent.checkStarted check.2
  match validate checks with
  | Except.ok _ => (started ++ [RunEvent.ranCmd], Except.ok ())
  | Except.error message => (started, Except.error message)

/-! ## Cacheable decorator (`src/io/cacheable.ts`) -/

/-- JavaScript values as the cache stores them, with an absent key read as
`undefined`; numbers are modelled as integers. -/
inductive JSValue
| vNull
| vUndefined
| vBool (b : Bool)
| vNum (n : Int)
| vStr (s : String)
| vObj (id : Nat)
deriving DecidableEq, Repr

/-- JavaScript truthiness: `null`, `undefined`, `false`, `0` and the empty
string are falsy; objects are truthy. -/
def truthy : JSValue → Bool
  | JSValue.vNull => false
  | JSValue.vUndefined => false
  | JSValue.vBool b => b
  | JSValue.vNum n => n != 0
  | JSValue.vStr s => s != ""
  | JSValue.vObj _ => true

/-- The cache key built by the decorator:
prefix, class name, `_`, property key, then `_`-joined serialized arguments
when there are any. -/
def computeKey (pre className propertyKey : String)
    (args : List String) : String :=
  pre ++ className ++ "_" ++ propertyKey ++
    (if args.isEmpty then "" else "_" ++ String.intercalate "_" args)

/-- The wrapper `cacheable` installs (`cachedFunction` in
`src/io/cacheable.ts`): when caching is disabled, call through; otherwise
read the computed key from the store and return the stored value if it is
truthy, else call the underlying method, store its result under the key and
return it. The result is (returned value, whether the underlying method was
invoked, store after the call). -/
def cachedFunction (disabled : Bool) (store : String → JSValue)
    (method : List String → JSValue) (pre className propertyKey : String)
    (args : List String) : JSValue × Bool × (String → JSValue) :=
  if disabled then (method args, true, store)
  else
    let key := computeKey pre className propertyKey args
    let cachedValue := store key
    if truthy cachedValue then (cachedValue, false, store)
    else (method args, true, fun k => if k == key then method args else store k)

/-! ## Witness fixtures -/

/-- A concrete tracker used by witnesses. -/
def trackerW : TrackerOps :=
  { getIssue := fun id =>
      { key := id, title := "Fix the bug", type := IssueType.bug
        status := IssueStatus.opened }
    createIssueForCurrentUser := fun c =>
      { key := "NEW-1", title := c.title, type := c.type
        status := IssueStatus.opened }
    setIssueStatus := fun status key =>
      { key := key, title := "Fix the bug", type := IssueType.bug
        status := status } }

/-- A concrete git adapter used by witnesses. -/
def gitW : GitOps :=
  { getBranchNameForIssue := fun issue => "b/" ++ issue.key }

/-- Arguments of a run on an existing issue with branch creation enabled. -/
def argsExisting : FotingoArguments :=
  { noBranchIssue := false, create := false, issueId := "ABC-123"
    description := "", labels := [], project := "", issueTitle := ""
    type := IssueType.feature }

/-- A concrete tracker client used by witnesses: the key `gone` is a 404,
the key `boom` a server error, every other key resolves; the literal key
`not valid` fails the validation check. -/
def trackerClientW : TrackerClient :=
  { isValidIssueName := fun key => !(key == "not valid")
    getIssue := fun key =>
      if key == "gone" then Except.error { code := 404 }
      else if key == "boom" then Except.error { code := 500 }
      else Except.ok
        { key := key, title := "Issue", type := IssueType.feature
          status := IssueStatus.opened } }

/-- A concrete branch info used by witnesses. -/
def branchInfoW : BranchInfo :=
  { name := "b/ABC-1", commits := [], issues := [{ issue := "ABC-1" }] }

/-! ## Theorems -/

/-- C1: starting work on an existing issue id with branch creation enabled
performs, in order: fetch the issue, set it in progress, then create the
branch named after the issue, and the emitted result is void (`none`); the
branch creation call is the only git effect in the trace. -/
theorem start_existing_issue_creates_branch (tracker : TrackerOps)
    (git : GitOps) (args : FotingoArguments) (hexisting : args.create = false)
    (hbranch : args.noBranchIssue = false) :
    cmd tracker git args =
      ([StartEvent.getIssue args.issueId,
        StartEvent.setIssueStatus IssueStatus.inProgress
          (tracker.getIssue args.issueId).key,
        StartEvent.createBranchAndStashChanges
          (git.getBranchNameForIssue
            (tracker.setIssueStatus IssueStatus.inProgress
              (tracker.getIssue args.issueId).key))],
       none) := by
  simp [cmd, getCommandData, getOrCreateIssue, getOrCreateIssueEvent,
    shouldCreateBranch, hexisting, hbranch]

/-- Witness for C1 at a concrete tracker, git adapter and argument set. -/
theorem start_existing_issue_creates_branch_witness :
    argsExisting.create = false ∧ argsExisting.noBranchIssue = false ∧
    cmd trackerW gitW argsExisting =
      ([StartEvent.getIssue "ABC-123",
        StartEvent.setIssueStatus IssueStatus.inProgress "ABC-123",
        StartEvent.createBranchAndStashChanges "b/ABC-123"], none) := by
  refine ⟨rfl, rfl, ?_⟩
  rw [start_existing_issue_creates_branch trackerW gitW argsExisting rfl rfl]
  rfl

/-- C2: a run flagged `noBranchIssue` performs no branch creation call and
emits the in-progress issue as its result; otherwise exactly one branch
creation call happens, under the name derived from the issue, and the
result is void. -/
theorem start_branch_flag_decides (tracker : TrackerOps) (git : GitOps)
    (args : FotingoArguments) :
    ((cmd tracker git args).1.countP isCreateBranchEvent
        = if args.noBranchIssue then 0 else 1)
    ∧ ((cmd tracker git args).2
        = if args.noBranchIssue
          then some (tracker.setIssueStatus IssueStatus.inProgress
              (getOrCreateIssue tracker (getCommandData args)).key)
          else none)
    ∧ (args.noBranchIssue = false →
        StartEvent.createBranchAndStashChanges
            (git.getBranchNameForIssue
              (tracker.setIssueStatus IssueStatus.inProgress
                (getOrCreateIssue tracker (getCommandData args)).key))
          ∈ (cmd tracker git args).1) := by
  cases h : args.noBranchIssue <;> cases hc : args.create <;>
    simp [cmd, getCommandData, getOrCreateIssue, getOrCreateIssueEvent,
      shouldCreateBranch, isCreateBranchEvent, h, hc, List.countP_cons,
      List.countP_append]

/-- Witness for C2: with branch creation enabled the branch creation call
for the derived name is in the trace. -/
theorem start_branch_flag_decides_witness :
    StartEvent.createBranchAndStashChanges
        (gitW.getBranchNameForIssue
          (trackerW.setIssueStatus IssueStatus.inProgress
            (getOrCreateIssue trackerW (getCommandData argsExisting)).key))
      ∈ (cmd trackerW gitW argsExisting).1 :=
  (start_branch_flag_decides trackerW gitW argsExisting).2.2 rfl

/-- C3: `createBranchAndStashChanges` stashes exactly once, under the fixed
message, when the working tree is dirty and not at all when it is clean;
any stash call happens before the single checkout call. -/
theorem createBranch_stash_iff_dirty (config : GitConfig) (st : GitState)
    (name : String) :
    stashMessages (createBranchAndStashChanges config st name).1
        = (if st.dirty.isEmpty then [] else [autoStashMessage])
    ∧ noStashAfterCheckout (createBranchAndStashChanges config st name).1
        = true
    ∧ (createBranchAndStashChanges config st name).1.countP isCheckoutEvent
        = 1 := by
  cases h : st.dirty.isEmpty <;>
    simp [createBranchAndStashChanges, stashMessages, noStashAfterCheckout,
      isStashEvent, isCheckoutEvent, h, List.countP_cons, List.countP_append]

/-- C4: `createBranchAndStashChanges` fetches first (before reading the
base branch tip), reads the tip of `remotes/<remote>/<baseBranch>`, and its
only checkout starts from the remote tip, never from local HEAD. -/
theorem createBranch_fetch_then_remote_tip (config : GitConfig)
    (st : GitState) (name : String) :
    (createBranchAndStashChanges config st name).1.head?
        = some GitEvent.fetch
    ∧ GitEvent.log (remoteBranchRef config)
        ∈ (createBranchAndStashChanges config st name).1
    ∧ checkoutTargets (createBranchAndStashChanges config st name).1
        = [(name, st.remoteTip)] := by
  cases h : st.dirty.isEmpty <;>
    simp [createBranchAndStashChanges, checkoutTargets, h]

/-- Counterexample to C5 as stated: on a dirty working tree, a call that
fails because the branch exists still changes the repository state (the
auto-generated stash remains), so the state is not unchanged. -/
theorem createBranch_existing_branch_cex :
    (createBranchAndStashChanges { remote := "origin", baseBranch := "master" }
        { dirty := ["file.txt"], stashes := [], branches := ["ABC-123"],
          head := "h0", remoteTip := "tip", fetchDone := false } "ABC-123").2
      = Except.error GitErrorType.branchAlreadyExists
    ∧ applyGitEvents
        { dirty := ["file.txt"], stashes := [], branches := ["ABC-123"],
          head := "h0", remoteTip := "tip", fetchDone := false }
        (createBranchAndStashChanges
          { remote := "origin", baseBranch := "master" }
          { dirty := ["file.txt"], stashes := [], branches := ["ABC-123"],
            head := "h0", remoteTip := "tip", fetchDone := false }
          "ABC-123").1
      ≠ { dirty := ["file.txt"], stashes := [], branches := ["ABC-123"],
          head := "h0", remoteTip := "tip", fetchDone := false } := by
  refine ⟨?_, by decide⟩
  rfl

/-- C5 amended: when the branch name already exists the call fails with
BRANCH_ALREADY_EXISTS; it creates no branch and does not move HEAD, but
the fetch it performed remains and, when the tree was dirty, so does the
stash pushed before the failed checkout. -/
theorem createBranch_existing_branch_fails (config : GitConfig)
    (st : GitState) (name : String) (hmem : name ∈ st.branches) :
    (createBranchAndStashChanges config st name).2
        = Except.error GitErrorType.branchAlreadyExists
    ∧ (applyGitEvents st
          (createBranchAndStashChanges config st name).1).branches
        = st.branches
    ∧ (applyGitEvents st (createBranchAndStashChanges config st name).1).head
        = st.head
    ∧ (applyGitEvents st
          (createBranchAndStashChanges config st name).1).stashes
        = (if st.dirty.isEmpty then st.stashes
           else autoStashMessage :: st.stashes)
    ∧ (applyGitEvents st
          (createBranchAndStashChanges config st name).1).fetchDone
        = true := by
  cases h : st.dirty.isEmpty <;>
    simp [createBranchAndStashChanges, applyGitEvents, applyGitEvent, h, hmem]

/-- Witness for C5 (amended) at a concrete state with a clean tree. -/
theorem createBranch_existing_branch_fails_witness :
    "ABC-123" ∈ ["ABC-123", "master"]
    ∧ (createBranchAndStashChanges
        { remote := "origin", baseBranch := "master" }
        { dirty := [], stashes := [], branches := ["ABC-123", "master"],
          head := "h0", remoteTip := "tip", fetchDone := false }
        "ABC-123").2 = Except.error GitErrorType.branchAlreadyExists := by
  refine ⟨by decide, ?_⟩
  exact (createBranch_existing_branch_fails
    { remote := "origin", baseBranch := "master" }
    { dirty := [], stashes := [], branches := ["ABC-123", "master"],
      head := "h0", remoteTip := "tip", fetchDone := false }
    "ABC-123" (by decide)).1

/-- C6: `getRemote` returns the remote matching the requested name when one
is configured, falls back to the first configured remote when the name is
absent, and fails with the no-remote error when no remotes exist. -/
theorem getRemote_lookup (remotes : List GitRemote) (name : String) :
    (remotes = [] → getRemote remotes name = Except.error GitErrorType.noRemote)
    ∧ (∀ r, (remotes.find? fun x => x.name == name) = some r →
        getRemote remotes name = Except.ok r)
    ∧ (∀ r rest, remotes = r :: rest →
        (remotes.find? fun x => x.name == name) = none →
        getRemote remotes name = Except.ok r) := by
  refine ⟨?_, ?_, ?_⟩
  · rintro rfl
    rfl
  · intro r hfind
    cases remotes with
    | nil => simp at hfind
    | cons a rest => simp [getRemote, hfind]
  · rintro r rest rfl hfind
    simp [getRemote, hfind]

/-- Witness for C6: an absent name falls back to the first remote. -/
theorem getRemote_lookup_witness :
    getRemote
        [{ name := "origin", fetchRef := "u1", pushRef := "u1" },
         { name := "upstream", fetchRef := "u2", pushRef := "u2" }]
        "some_remote"
      = Except.ok { name := "origin", fetchRef := "u1", pushRef := "u1" } :=
  (getRemote_lookup
      [{ name := "origin", fetchRef := "u1", pushRef := "u1" },
       { name := "upstream", fetchRef := "u2", pushRef := "u2" }]
      "some_remote").2.2 _ _ rfl (by decide)

/-- C7: every key `getLocalChangesInformation` subscribes a tracker lookup
for passes the configured validation check, and appending a key that fails
the check changes neither the lookups nor the outcome: invalid keys are
silently dropped and never fail the operation. -/
theorem localChanges_only_valid_keys (tracker : TrackerClient)
    (branchInfo : BranchInfo) (issues : List String) :
    ((getLocalChangesInformation tracker branchInfo issues true).1.all
        tracker.isValidIssueName = true)
    ∧ (∀ key, tracker.isValidIssueName key = false →
        getLocalChangesInformation tracker branchInfo (issues ++ [key]) true
          = getLocalChangesInformation tracker branchInfo issues true) := by
  constructor
  · rw [List.all_eq_true]
    intro k hk
    have htrace : (getLocalChangesInformation tracker branchInfo issues
          true).1
        = (branchInfo.issues.map IssueReference.issue ++ issues).filter
            tracker.isValidIssueName := rfl
    rw [htrace] at hk
    exact List.of_mem_filter hk
  · intro key hkey
    simp [getLocalChangesInformation, List.filter_append, List.filter_cons,
      hkey]

/-- Witness for C7: adding a key with a space (invalid) is a no-op. -/
theorem localChanges_only_valid_keys_witness :
    trackerClientW.isValidIssueName "not valid" = false
    ∧ getLocalChangesInformation trackerClientW branchInfoW
          ["XY-2", "not valid"] true
        = getLocalChangesInformation trackerClientW branchInfoW ["XY-2"] true := by
  refine ⟨by decide, ?_⟩
  exact (localChanges_only_valid_keys trackerClientW branchInfoW
    ["XY-2"]).2 "not valid" (by decide)

/-- When every key either resolves or 404s, the aggregate resolution
succeeds with exactly the issues of the keys that resolved. -/
theorem resolveIssues_ok_of_soft_errors (tracker : TrackerClient)
    (keys : List String)
    (h : (keys.all fun key => is404 tracker key || fetchOk tracker key)
      = true) :
    resolveIssues tracker keys = Except.ok (okIssues tracker keys) := by
  induction keys with
  | nil => rfl
  | cons key rest ih =>
    rw [List.all_cons, Bool.and_eq_true] at h
    have hrest := ih h.2
    have hkey := h.1
    cases h1 : tracker.getIssue key with
    | error e =>
      have h404 : (e.code == 404) = true := by
        simpa [is404, fetchOk, h1] using hkey
      simp [resolveIssues, okIssues, List.filterMap_cons, h1, hrest, h404,
        Except.toOption]
    | ok issue =>
      simp [resolveIssues, okIssues, List.filterMap_cons, h1, hrest,
        Except.toOption]

/-- A key whose fetch fails with a code other than 404 makes the aggregate
resolution fail with a non-404 error. -/
theorem resolveIssues_error_of_hard_error (tracker : TrackerClient)
    (keys : List String) (key : String) (e : JiraError)
    (hmem : key ∈ keys) (herr : tracker.getIssue key = Except.error e)
    (hcode : e.code ≠ 404) :
    ∃ e2, resolveIssues tracker keys = Except.error e2 ∧ e2.code ≠ 404 := by
  induction keys with
  | nil => cases hmem
  | cons k rest ih =>
    rcases List.mem_cons.mp hmem with heq | hmem2
    · subst heq
      refine ⟨e, ?_, hcode⟩
      cases hr : resolveIssues tracker rest with
      | ok issues => simp [resolveIssues, herr, hr, hcode]
      | error e3 => simp [resolveIssues, herr, hr, hcode]
    · obtain ⟨e2, hres, hc⟩ := ih hmem2
      cases h1 : tracker.getIssue k with
      | ok issue => exact ⟨e2, by simp [resolveIssues, h1, hres], hc⟩
      | error e0 =>
        by_cases h404 : e0.code = 404
        · exact ⟨e2, by simp [resolveIssues, h1, hres, h404], hc⟩
        · exact ⟨e0, by simp [resolveIssues, h1, h404], h404⟩

/-- C8: during bulk resolution, when every subscribed key either resolves
or 404s the aggregate succeeds and the 404 keys are simply omitted from the
issue list; a key failing with any other code fails the whole aggregate. -/
theorem localChanges_404_swallowed (tracker : TrackerClient)
    (branchInfo : BranchInfo) (issues : List String) :
    (((getLocalChangesInformation tracker branchInfo issues true).1.all
          fun key => is404 tracker key || fetchOk tracker key) = true →
      (getLocalChangesInformation tracker branchInfo issues true).2
        = Except.ok { branchInfo := branchInfo,
                      issues := okIssues tracker
                        (getLocalChangesInformation tracker branchInfo
                          issues true).1 })
    ∧ (∀ key e,
        key ∈ (getLocalChangesInformation tracker branchInfo issues true).1 →
        tracker.getIssue key = Except.error e → e.code ≠ 404 →
        ∃ e2, (getLocalChangesInformation tracker branchInfo issues true).2
            = Except.error e2 ∧ e2.code ≠ 404) := by
  constructor
  · intro h
    rw [getLocalChangesInformation] at h ⊢
    simp only [Bool.not_true, Bool.false_eq_true, if_false, ite_false] at h ⊢
    rw [resolveIssues_ok_of_soft_errors tracker _ h]
    rfl
  · intro key e hmem herr hcode
    have htrace : (getLocalChangesInformation tracker branchInfo issues
          true).1
        = (branchInfo.issues.map IssueReference.issue ++ issues).filter
            tracker.isValidIssueName := rfl
    rw [htrace] at hmem
    obtain ⟨e2, hres, hc⟩ :=
      resolveIssues_error_of_hard_error tracker _ key e hmem herr hcode
    refine ⟨e2, ?_, hc⟩
    have hsnd : (getLocalChangesInformation tracker branchInfo issues
          true).2
        = (resolveIssues tracker
            ((branchInfo.issues.map IssueReference.issue ++ issues).filter
              tracker.isValidIssueName)).map
            (fun resolved => { branchInfo := branchInfo, issues := resolved }) :=
      rfl
    rw [hsnd, hres]
    rfl

/-- Witness for C8: with one resolving key and one 404 key, the aggregate
succeeds and contains only the resolving key's issue. -/
theorem localChanges_404_swallowed_witness :
    (getLocalChangesInformation trackerClientW branchInfoW ["gone"] true).2
      = Except.ok { branchInfo := branchInfoW,
                    issues := okIssues trackerClientW
                      (getLocalChangesInformation trackerClientW branchInfoW
                        ["gone"] true).1 } :=
  (localChanges_404_swallowed trackerClientW branchInfoW ["gone"]).1
    (by decide)

/-- A failing check makes `validate` fail with the message of a failing
check. -/
theorem validate_error_of_failing (checks : List (Bool × String))
    (h : ∃ c ∈ checks, c.1 = false) :
    ∃ c ∈ checks, c.1 = false ∧ validate checks = Except.error c.2 := by
  induction checks with
  | nil =>
    obtain ⟨c, hc, _⟩ := h
    cases hc
  | cons check rest ih =>
    cases hb : check.1 with
    | false =>
      exact ⟨check, List.mem_cons_self check rest, hb, by simp [validate, hb]⟩
    | true =>
      have h2 : ∃ c ∈ rest, c.1 = false := by
        obtain ⟨c, hc, hfail⟩ := h
        rcases List.mem_cons.mp hc with heq | hmem
        · subst heq
          rw [hb] at hfail
          cases hfail
        · exact ⟨c, hmem, hfail⟩
      obtain ⟨c, hc, hfail, hval⟩ := ih h2
      exact ⟨c, List.mem_cons_of_mem _ hc, hfail,
        by simp [validate, hb, hval]⟩

/-- C9: every registered check is started; if some check fails, the run
aborts with a failing check's message and the command body is never
invoked. -/
theorem run_validation_gate (checks : List (Bool × String)) :
    (∀ c ∈ checks, RunEvent.checkStarted c.2 ∈ (runCommand checks).1)
    ∧ ((∃ c ∈ checks, c.1 = false) →
        ∃ c ∈ checks, c.1 = false
          ∧ (runCommand checks).2 = Except.error c.2
          ∧ RunEvent.ranCmd ∉ (runCommand checks).1) := by
  constructor
  · intro c hc
    have hm : RunEvent.checkStarted c.2
        ∈ checks.map fun check => RunEvent.checkStarted check.2 :=
      List.mem_map_of_mem _ hc
    cases hv : validate checks with
    | ok u =>
      simp only [runCommand, hv, List.mem_append]
      exact Or.inl hm
    | error m => simpa [runCommand, hv] using hm
  · intro hfail
    obtain ⟨c, hc, hb, hval⟩ := validate_error_of_failing checks hfail
    refine ⟨c, hc, hb, by simp [runCommand, hval], ?_⟩
    simp [runCommand, hval, List.mem_map]

/-- Witness for C9 at a concrete check list with one failing check. -/
theorem run_validation_gate_witness :
    ∃ c ∈ [(true, "no base branch"), (false, "not a git repo")], c.1 = false
      ∧ (runCommand
            [(true, "no base branch"), (false, "not a git repo")]).2
          = Except.error c.2
      ∧ RunEvent.ranCmd
          ∉ (runCommand
              [(true, "no base branch"), (false, "not a git repo")]).1 :=
  (run_validation_gate
      [(true, "no base branch"), (false, "not a git repo")]).2
    ⟨(false, "not a git repo"), by decide, rfl⟩

/-- C10: with caching enabled, a falsy stored value at the computed key is
treated as a miss (the underlying method runs and its result is returned),
and the cache only ever serves a value without invoking the method when the
stored value is truthy, in which case the stored value is returned. -/
theorem cacheable_falsy_is_miss (store : String → JSValue)
    (method : List String → JSValue) (pre className propertyKey : String)
    (args : List String) :
    (truthy (store (computeKey pre className propertyKey args)) = false →
      (cachedFunction false store method pre className propertyKey args).1
          = method args
      ∧ (cachedFunction false store method pre className propertyKey
          args).2.1 = true)
    ∧ ((cachedFunction false store method pre className propertyKey
          args).2.1 = false →
      truthy (store (computeKey pre className propertyKey args)) = true
      ∧ (cachedFunction false store method pre className propertyKey args).1
          = store (computeKey pre className propertyKey args)) := by
  cases h : truthy (store (computeKey pre className propertyKey args)) <;>
    simp [cachedFunction, h]

/-- Witness for C10: a stored `0` is served as a miss. -/
theorem cacheable_falsy_is_miss_witness :
    truthy ((fun _ => JSValue.vNum 0) (computeKey "" "Jira" "getIssue"
        ["key"])) = false
    ∧ (cachedFunction false (fun _ => JSValue.vNum 0)
        (fun _ => JSValue.vStr "issue") "" "Jira" "getIssue" ["key"]).1
        = JSValue.vStr "issue"
    ∧ (cachedFunction false (fun _ => JSValue.vNum 0)
        (fun _ => JSValue.vStr "issue") "" "Jira" "getIssue" ["key"]).2.1
        = true := by
  refine ⟨rfl, ?_, ?_⟩
  · exact ((cacheable_falsy_is_miss (fun _ => JSValue.vNum 0)
      (fun _ => JSValue.vStr "issue") "" "Jira" "getIssue" ["key"]).1
        rfl).1
  · exact ((cacheable_falsy_is_miss (fun _ => JSValue.vNum 0)
      (fun _ => JSValue.vStr "issue") "" "Jira" "getIssue" ["key"]).1
        rfl).2

end Fotingo
